import Mathlib

/-!
Shallow embedding of `src/vs/workbench/contrib/notebook/browser/notebookEditor.ts`
(`class NotebookEditor extends BaseEditor`), the pane controller that binds an
editor pane to a pooled notebook widget.

Modelling conventions:
* URIs, group ids, view-state blobs, widget ids and document models are `Nat`.
* `this.input` / `this._input`, `this._widget.value`, `this.dimension`,
  `this.group` and the `editorMemento` store are the mutable fields; they form
  `NotebookEditorState`.
* Calls out to external collaborators (widget `onWillHide`, `layout`,
  `setModel`, the notification prompt, focus subscription, drop-target
  registration, memento writes) are recorded as an `Effect` trace in program
  order.
* Per the concurrency model, the only suspension point of `setInput` is
  `await input.resolve(...)`; `setInput` is therefore split into the atomic
  prefix `setInput_pre` (everything before the await) and the atomic
  continuation `setInput_post` (everything after).  The widget returned by the
  pool and the resolution result are parameters, since pool and resolver are
  external.
* The source's `setInput` accepts a `CancellationToken` but never reads it;
  the embedding keeps the parameter (`_tokenCancelled`), likewise unread.
-/

/-- An editor input reference: identity is a resource URI plus a view type;
`isNotebook` models `instanceof NotebookEditorInput`. -/
structure EditorInput where
  resource : Nat
  viewType : Nat
  isNotebook : Bool
deriving DecidableEq, Repr

/-- A borrowed notebook widget as seen by the controller: its id (`getId()`),
the URI of its installed view model, if any (`viewModel?.uri`), and the
view-state blob `getEditorViewState()` reports. -/
structure Widget where
  wid : Nat
  viewModelUri : Option Nat
  viewState : Nat
deriving DecidableEq, Repr

/-- Pane dimensions (`DOM.Dimension`). -/
structure Dim where
  width : Nat
  height : Nat
deriving DecidableEq, Repr

/-- The view-state store: a keyed map from (editor group id, resource URI) to a
view-state blob, newest entry first. -/
abbrev VSStore := List ((Nat × Nat) × Nat)

/-- Modelled from the spec: `IEditorMemento.saveEditorState` (not in src/) is a
keyed write, last-write-wins per (group, uri) key. -/
def saveEditorState (store : VSStore) (g u s : Nat) : VSStore :=
  ((g, u), s) :: store.filter (fun e => decide (e.1 ≠ (g, u)))

/-- Modelled from the spec: `IEditorMemento.loadEditorState` (not in src/) is a
keyed lookup returning the stored blob, if any. -/
def loadEditorState (store : VSStore) (g u : Nat) : Option Nat :=
  (store.find? (fun e => decide (e.1 = (g, u)))).map (fun e => e.2)

/-- Observable calls the controller makes on its external collaborators, in
program order. -/
inductive Effect where
  | saveVS (g u s : Nat)
  | hideWidget (wid : Nat)
  | layoutWidget (wid : Nat) (d : Dim)
  | setModel (wid : Nat) (model : Nat) (vs : Option Nat)
  | promptNoEditor
  | subscribeFocus (wid : Nat)
  | dropTarget (wid : Nat)
deriving DecidableEq, Repr

/-- The mutable fields of `NotebookEditor`. -/
structure NotebookEditorState where
  input : Option EditorInput
  widget : Option Widget
  dimension : Option Dim
  group : Option Nat
  store : VSStore
deriving DecidableEq, Repr

namespace NotebookEditor

/-- Modelled from the spec: `BaseEditor.setInput` (not in src/) records the new
input as the pane's current input. -/
def super_setInput (st : NotebookEditorState) (input : EditorInput) : NotebookEditorState :=
  { st with input := some input }

/-- Modelled from the spec: `BaseEditor.clearInput` (not in src/) clears the
pane's current input (transition to the Empty state). -/
def super_clearInput (st : NotebookEditorState) : NotebookEditorState :=
  { st with input := none }

/-- `private saveEditorViewState(input)`: only when both a group and a borrowed
widget are present, query the widget for its view state and write it to the
memento keyed by (group, input.resource). -/
def saveEditorViewState (st : NotebookEditorState) (input : EditorInput) :
    NotebookEditorState × List Effect :=
  match st.group, st.widget with
  | some g, some w =>
    ({ st with store := saveEditorState st.store g input.resource w.viewState },
     [Effect.saveVS g input.resource w.viewState])
  | _, _ => (st, [])

/-- The recurring source pattern
`if (this.input instanceof NotebookEditorInput) this.saveEditorViewState(this.input)`. -/
def saveViewStateIfNotebook (st : NotebookEditorState) : NotebookEditorState × List Effect :=
  match st.input with
  | some i => if i.isNotebook then saveEditorViewState st i else (st, [])
  | none => (st, [])

/-- `private loadTextEditorViewState(input)`: look the state up only when a
group is assigned. -/
def loadTextEditorViewState (st : NotebookEditorState) (input : EditorInput) : Option Nat :=
  match st.group with
  | some g => loadEditorState st.store g input.resource
  | none => none

/-- `setInput` up to and excluding `await input.resolve(...)`: save the
outgoing notebook input's view state, record the new input
(`await super.setInput`, synchronous in the model), clear the per-widget
subscriptions, hide the previously borrowed widget, borrow `w` from the pool,
and apply the cached dimension to it. -/
def setInput_pre (st : NotebookEditorState) (input : EditorInput) (w : Widget) :
    NotebookEditorState × List Effect :=
  let p1 := saveViewStateIfNotebook st
  let st2 := super_setInput p1.1 input
  let hideEff : List Effect :=
    match st2.widget with
    | some pw => [Effect.hideWidget pw.wid]
    | none => []
  let st3 : NotebookEditorState := { st2 with widget := some w }
  let layoutEff : List Effect :=
    match st3.dimension with
    | some d => [Effect.layoutWidget w.wid d]
    | none => []
  (st3, p1.2 ++ hideEff ++ layoutEff)

/-- The continuation of `setInput` after `await input.resolve(...)` resumes with
resolution result `model`.  On `null` it prompts and returns; otherwise it loads
the saved view state for the captured `input` and calls `setModel` on the
*currently* borrowed widget, then wires focus and (inside an `EditorPart`) a
drop target.  The source performs no staleness check against the now-current
input and never consults the cancellation token (`_tokenCancelled` is unread,
as in the source). -/
def setInput_post (st : NotebookEditorState) (input : EditorInput) (model : Option Nat)
    (_tokenCancelled : Bool) (isEditorPart : Bool) : NotebookEditorState × List Effect :=
  match model with
  | none => (st, [Effect.promptNoEditor])
  | some m =>
    let vs := loadTextEditorViewState st input
    match st.widget with
    | some w =>
      (st, [Effect.setModel w.wid m vs, Effect.subscribeFocus w.wid]
            ++ (if isEditorPart then [Effect.dropTarget w.wid] else []))
    | none => (st, [])

/-- An uninterleaved `async setInput(input, options, token)` call: the prefix
runs, the call suspends on resolution, and the continuation resumes in the
state the prefix left (no other operation ran in between). -/
def setInput (st : NotebookEditorState) (input : EditorInput) (w : Widget) (model : Option Nat)
    (tokenCancelled : Bool) (isEditorPart : Bool) : NotebookEditorState × List Effect :=
  let p1 := setInput_pre st input w
  let p2 := setInput_post p1.1 input model tokenCancelled isEditorPart
  (p2.1, p1.2 ++ p2.2)

/-- `clearInput()`: hide the borrowed widget if any, then `super.clearInput()`.
The borrow itself is left in place (the source does not reset `this._widget`). -/
def clearInput (st : NotebookEditorState) : NotebookEditorState × List Effect :=
  let hideEff : List Effect :=
    match st.widget with
    | some w => [Effect.hideWidget w.wid]
    | none => []
  (super_clearInput st, hideEff)

/-- `private onWillCloseEditorInGroup(e)`: ignore non-notebook inputs; when the
closing editor is the pane's current input, save its view state. -/
def onWillCloseEditorInGroup (st : NotebookEditorState) (editor : EditorInput) :
    NotebookEditorState × List Effect :=
  if editor.isNotebook then
    match st.input with
    | some cur => if editor = cur then saveEditorViewState st editor else (st, [])
    | none => (st, [])
  else (st, [])

/-- `onWillHide()` (notifyHiding): save the current notebook input's view
state, then, if an input and a widget are present, tell the widget
`onWillHide`. -/
def onWillHide (st : NotebookEditorState) : NotebookEditorState × List Effect :=
  let p := saveViewStateIfNotebook st
  let hideEff : List Effect :=
    match p.1.input, p.1.widget with
    | some _, some wv => [Effect.hideWidget wv.wid]
    | _, _ => []
  (p.1, p.2 ++ hideEff)

/-- `protected saveState()` (persistState): save the current notebook input's
view state; `super.saveState()` touches none of the modelled fields. -/
def saveState (st : NotebookEditorState) : NotebookEditorState × List Effect :=
  saveViewStateIfNotebook st

/-- `layout(dimension)`: cache the dimension unconditionally; skip forwarding
when no widget is borrowed or the input is not a notebook input; skip also when
the widget has a view model whose URI differs from the input's resource; else
forward the cached dimension to the widget. -/
def layout (st : NotebookEditorState) (d : Dim) : NotebookEditorState × List Effect :=
  let st1 : NotebookEditorState := { st with dimension := some d }
  match st.widget, st.input with
  | some w, some i =>
    if i.isNotebook then
      match w.viewModelUri with
      | some u =>
        if i.resource = u then (st1, [Effect.layoutWidget w.wid d]) else (st1, [])
      | none => (st1, [Effect.layoutWidget w.wid d])
    else (st1, [])
  | _, _ => (st1, [])

end NotebookEditor

/-! ## General lemmas about the store and the `setInput` phases -/

namespace NotebookEditor

/-- Store round trip: a keyed write is immediately readable at its key. -/
theorem loadEditorState_saveEditorState (s : VSStore) (g u v : Nat) :
    loadEditorState (saveEditorState s g u v) g u = some v := by
  simp [loadEditorState, saveEditorState, List.find?_cons]

/-- Writing the same blob twice at a key equals writing it once. -/
theorem saveEditorState_idem (s : VSStore) (g u v : Nat) :
    saveEditorState (saveEditorState s g u v) g u v = saveEditorState s g u v := by
  simp [saveEditorState, List.filter_cons, List.filter_filter]

/-- `saveEditorViewState` is the identity (with no effects) when no widget is
borrowed or no group is assigned. -/
theorem saveEditorViewState_noop (st : NotebookEditorState) (i : EditorInput)
    (h : st.widget = none ∨ st.group = none) : saveEditorViewState st i = (st, []) := by
  obtain ⟨i0, w0, d0, g0, s0⟩ := st
  cases w0 <;> cases g0 <;> first | rfl | simp_all

/-- `saveViewStateIfNotebook` is the identity (with no effects) when no widget
is borrowed or no group is assigned. -/
theorem saveViewStateIfNotebook_noop (st : NotebookEditorState)
    (h : st.widget = none ∨ st.group = none) : saveViewStateIfNotebook st = (st, []) := by
  unfold saveViewStateIfNotebook
  cases hi : st.input with
  | none => rfl
  | some i =>
    show (if i.isNotebook = true then saveEditorViewState st i else (st, [])) = (st, [])
    rw [saveEditorViewState_noop st i h]
    split <;> rfl

/-- `saveViewStateIfNotebook` changes only the store field. -/
theorem saveViewStateIfNotebook_fields (st : NotebookEditorState) :
    (saveViewStateIfNotebook st).1.input = st.input ∧
    (saveViewStateIfNotebook st).1.widget = st.widget ∧
    (saveViewStateIfNotebook st).1.dimension = st.dimension ∧
    (saveViewStateIfNotebook st).1.group = st.group := by
  obtain ⟨i0, w0, d0, g0, s0⟩ := st
  cases i0 with
  | none => simp [saveViewStateIfNotebook]
  | some i =>
    cases w0 <;> cases g0 <;>
      simp [saveViewStateIfNotebook, saveEditorViewState] <;> split <;> simp

/-- After the pre-await phase, the controller's current input is the new input. -/
theorem setInput_pre_input (st : NotebookEditorState) (i : EditorInput) (w : Widget) :
    (setInput_pre st i w).1.input = some i := by
  simp [setInput_pre, super_setInput]

/-- After the pre-await phase, the borrowed widget is the pool's widget. -/
theorem setInput_pre_widget (st : NotebookEditorState) (i : EditorInput) (w : Widget) :
    (setInput_pre st i w).1.widget = some w := by
  simp [setInput_pre, super_setInput]

/-- The pre-await phase does not change the group. -/
theorem setInput_pre_group (st : NotebookEditorState) (i : EditorInput) (w : Widget) :
    (setInput_pre st i w).1.group = st.group := by
  simp [setInput_pre, super_setInput, (saveViewStateIfNotebook_fields st).2.2.2]

/-- The pre-await phase of `setInput` performs no `setModel` call: the model is
installed only after resolution. -/
theorem setInput_pre_no_setModel (st : NotebookEditorState) (i : EditorInput) (w : Widget)
    (wid m : Nat) (vs : Option Nat) : Effect.setModel wid m vs ∉ (setInput_pre st i w).2 := by
  obtain ⟨i0, w0, d0, g0, s0⟩ := st
  cases i0 with
  | none =>
    cases w0 <;> cases d0 <;>
      simp [setInput_pre, saveViewStateIfNotebook, super_setInput]
  | some i1 =>
    cases w0 <;> cases g0 <;> cases d0 <;>
      simp [setInput_pre, saveViewStateIfNotebook, saveEditorViewState, super_setInput] <;>
      split <;> simp

/-- The post-await continuation never changes the controller state: it only
reads it and emits external calls. -/
theorem setInput_post_state (st : NotebookEditorState) (i : EditorInput) (m : Option Nat)
    (tc ep : Bool) : (setInput_post st i m tc ep).1 = st := by
  cases m with
  | none => rfl
  | some v => cases hw : st.widget <;> simp [setInput_post, hw]

/-- Effects of the continuation when a widget is borrowed and resolution
succeeded. -/
theorem setInput_post_resolved (st : NotebookEditorState) (i : EditorInput) (m : Nat)
    (tc ep : Bool) (w : Widget) (hw : st.widget = some w) :
    (setInput_post st i (some m) tc ep).2 =
      [Effect.setModel w.wid m (loadTextEditorViewState st i), Effect.subscribeFocus w.wid]
        ++ (if ep then [Effect.dropTarget w.wid] else []) := by
  simp [setInput_post, hw]

/-- With a group assigned, `loadTextEditorViewState` is a store lookup keyed by
the group and the input's resource. -/
theorem loadTextEditorViewState_eq (st : NotebookEditorState) (i : EditorInput) (g : Nat)
    (hg : st.group = some g) :
    loadTextEditorViewState st i = loadEditorState st.store g i.resource := by
  simp [loadTextEditorViewState, hg]

end NotebookEditor

/-! ## Claim theorems -/

namespace NotebookEditor

/-- Claim C1 (refuted; evaluation of the code at the failing interleaving).
`setInput(A)` suspends awaiting resolution; `setInput(B)` runs its prefix
before A resolves, so at resume time the controller's current input is B, not
A.  The claim says A's resumed continuation performs no further mutation, but
the source has no staleness check after the await: A's continuation still calls
`setModel` on the currently borrowed widget (B's widget, id 22) with A's stale
model (55) and subscribes focus.  Concretely, from the empty controller with
group 0: run `setInput_pre` for A (uri 1, widget 11), then `setInput_pre` for B
(uri 2, widget 22), then resume A's continuation with a resolved model. -/
theorem C1_stale_continuation_still_mutates :
    ((NotebookEditor.setInput_pre
        (NotebookEditor.setInput_pre
          ⟨none, none, none, some 0, []⟩ ⟨1, 7, true⟩ ⟨11, none, 100⟩).1
        ⟨2, 7, true⟩ ⟨22, none, 200⟩).1.input = some ⟨2, 7, true⟩) ∧
    (NotebookEditor.setInput_post
        (NotebookEditor.setInput_pre
          (NotebookEditor.setInput_pre
            ⟨none, none, none, some 0, []⟩ ⟨1, 7, true⟩ ⟨11, none, 100⟩).1
          ⟨2, 7, true⟩ ⟨22, none, 200⟩).1
        ⟨1, 7, true⟩ (some 55) false false).2
      = [Effect.setModel 22 55 (some 100), Effect.subscribeFocus 22] := by
  constructor
  · rfl
  · rfl

/-- Claim C5 (refuted; evaluation of the code at the failing input).  The
source's `setInput` accepts a cancellation token but never consults it (the
token is not even passed to `input.resolve`).  With the token signalled before
resolution completes (`tokenCancelled = true`), the resumed continuation still
installs the model into the widget instead of abandoning silently; the effect
trace is identical to the uncancelled run. -/
theorem C5_cancelled_call_still_mutates :
    ((NotebookEditor.setInput
        ⟨none, none, none, some 3, []⟩ ⟨4, 7, true⟩ ⟨33, none, 50⟩ (some 9) true false).2
      = (NotebookEditor.setInput
          ⟨none, none, none, some 3, []⟩ ⟨4, 7, true⟩ ⟨33, none, 50⟩ (some 9) false false).2) ∧
    (Effect.setModel 33 9 none ∈
      (NotebookEditor.setInput
        ⟨none, none, none, some 3, []⟩ ⟨4, 7, true⟩ ⟨33, none, 50⟩ (some 9) true false).2) := by
  constructor
  · rfl
  · decide

/-- Claim C2 counterexample.  The claim says that on null resolution the
controller transitions to Empty (no current input, no widget attached).  From a
controller showing notebook input uri 1, assigning input uri 2 whose resolution
returns null leaves the controller with current input uri 2 still set and the
newly borrowed widget (id 22) still held — not the Empty state. -/
theorem C2_counterexample :
    ((NotebookEditor.setInput
        ⟨some ⟨1, 7, true⟩, some ⟨11, some 1, 100⟩, none, some 0, []⟩
        ⟨2, 9, true⟩ ⟨22, none, 200⟩ none false false).1.input = some ⟨2, 9, true⟩) ∧
    ((NotebookEditor.setInput
        ⟨some ⟨1, 7, true⟩, some ⟨11, some 1, 100⟩, none, some 0, []⟩
        ⟨2, 9, true⟩ ⟨22, none, 200⟩ none false false).1.widget = some ⟨22, none, 200⟩) := by
  constructor
  · rfl
  · rfl

/-- Claim C2 as amended.  When resolution returns null, every `setInput` call
surfaces the recovery prompt and returns without throwing and without
installing any model into the widget (no `setModel`); however the controller
does not transition to Empty: the just-assigned input remains current and the
freshly borrowed widget remains held. -/
theorem C2_null_resolution_prompts_without_attach (st : NotebookEditorState)
    (i : EditorInput) (w : Widget) (tc ep : Bool) :
    (Effect.promptNoEditor ∈ (setInput st i w none tc ep).2) ∧
    (∀ wid m vs, Effect.setModel wid m vs ∉ (setInput st i w none tc ep).2) ∧
    ((setInput st i w none tc ep).1.input = some i) ∧
    ((setInput st i w none tc ep).1.widget = some w) := by
  refine ⟨?_, ?_, ?_, ?_⟩
  · simp [setInput, setInput_post]
  · intro wid m vs
    simp only [setInput, setInput_post, List.mem_append]
    rintro (h | h)
    · exact setInput_pre_no_setModel st i w wid m vs h
    · simp at h
  · simp [setInput, setInput_post, setInput_pre_input]
  · simp [setInput, setInput_post, setInput_pre_widget]

/-- Claim C2 amended, witness at a concrete input. -/
theorem C2_null_resolution_witness :
    Effect.promptNoEditor ∈
      (NotebookEditor.setInput ⟨none, none, none, some 0, []⟩
        ⟨5, 7, true⟩ ⟨44, none, 0⟩ none false false).2 :=
  (NotebookEditor.C2_null_resolution_prompts_without_attach
    ⟨none, none, none, some 0, []⟩ ⟨5, 7, true⟩ ⟨44, none, 0⟩ false false).1

end NotebookEditor

namespace NotebookEditor

/-- Claim C3.  When the outgoing input `a` is notebook-typed and a group and a
widget are present, `setInput(b)` emits, before it first awaits resolution
(i.e. within `setInput_pre`), first the view-state save for `a` (keyed by the
group and `a`'s URI, and loadable from the resulting store) and then the hide
of the outgoing widget; no `setModel` occurs in this pre-await phase, so every
model install (in particular `b`'s) comes after both. -/
theorem C3_save_and_hide_precede_attach (st : NotebookEditorState) (a b : EditorInput)
    (g : Nat) (wOld wNew : Widget)
    (h1 : st.input = some a) (h2 : a.isNotebook = true)
    (h3 : st.group = some g) (h4 : st.widget = some wOld) :
    ((setInput_pre st b wNew).2.take 2 =
      [Effect.saveVS g a.resource wOld.viewState, Effect.hideWidget wOld.wid]) ∧
    (loadEditorState (setInput_pre st b wNew).1.store g a.resource = some wOld.viewState) ∧
    (∀ wid m vs, Effect.setModel wid m vs ∉ (setInput_pre st b wNew).2) := by
  obtain ⟨i0, w0, d0, g0, s0⟩ := st
  dsimp only at h1 h3 h4
  subst h1; subst h3; subst h4
  cases d0 <;>
    simp [setInput_pre, saveViewStateIfNotebook, saveEditorViewState, super_setInput, h2,
      loadEditorState_saveEditorState]

/-- Claim C3, witness at a concrete input. -/
theorem C3_witness :
    (NotebookEditor.setInput_pre
        ⟨some ⟨1, 7, true⟩, some ⟨11, none, 100⟩, none, some 0, []⟩
        ⟨2, 7, true⟩ ⟨22, none, 200⟩).2.take 2 =
      [Effect.saveVS 0 1 100, Effect.hideWidget 11] :=
  (NotebookEditor.C3_save_and_hide_precede_attach
    ⟨some ⟨1, 7, true⟩, some ⟨11, none, 100⟩, none, some 0, []⟩
    ⟨1, 7, true⟩ ⟨2, 7, true⟩ 0 ⟨11, none, 100⟩ ⟨22, none, 200⟩ rfl rfl rfl rfl).1

/-- Claim C4 counterexample.  The claim requires that the widget receives a
layout call only when the current input's document identity matches the
widget's own reported identity.  With a borrowed widget that reports no view
model (`viewModelUri = none`) while the notebook input has resource 3, the
source forwards the resize anyway: the guard only fires when a view model is
present and mismatching. -/
theorem C4_counterexample :
    ((NotebookEditor.layout
        ⟨some ⟨3, 7, true⟩, some ⟨5, none, 0⟩, none, some 0, []⟩ ⟨800, 600⟩).2 =
      [Effect.layoutWidget 5 ⟨800, 600⟩]) ∧
    ((⟨5, none, 0⟩ : Widget).viewModelUri ≠ some (3 : Nat)) := by
  exact ⟨rfl, by decide⟩

/-- Claim C4 as amended.  `layout` always caches the new size; it forwards the
size to the borrowed widget exactly when a widget is borrowed, the current
input is notebook-typed, and the widget either reports no document identity
(no view model installed) or its reported identity equals the input's
resource. -/
theorem C4_layout_guard (st : NotebookEditorState) (d : Dim) :
    ((layout st d).1.dimension = some d) ∧
    (st.widget = none → (layout st d).2 = []) ∧
    (∀ w, st.widget = some w →
      (Effect.layoutWidget w.wid d ∈ (layout st d).2 ↔
        ∃ i, st.input = some i ∧ i.isNotebook = true ∧
          (w.viewModelUri = none ∨ w.viewModelUri = some i.resource))) := by
  obtain ⟨i0, w0, d0, g0, s0⟩ := st
  refine ⟨?_, ?_, ?_⟩
  · cases w0 <;> cases i0 <;> unfold layout <;> (repeat' split) <;> rfl
  · intro hw
    dsimp only at hw
    subst hw
    cases i0 <;> rfl
  · intro w hw
    dsimp only at hw
    subst hw
    cases i0 with
    | none => simp [layout]
    | some i =>
      obtain ⟨r, vt, nb⟩ := i
      cases nb with
      | false => simp [layout]
      | true =>
        cases hv : w.viewModelUri with
        | none => simp [layout, hv]
        | some u =>
          by_cases hr : r = u
          · simp [layout, hv, hr]
          · simp [layout, hv, hr, Ne.symm hr]

/-- Claim C4 amended, witness at a concrete input: identity match present, the
resize is forwarded. -/
theorem C4_witness :
    Effect.layoutWidget 5 ⟨800, 600⟩ ∈
      (NotebookEditor.layout
        ⟨some ⟨3, 7, true⟩, some ⟨5, some 3, 0⟩, none, none, []⟩ ⟨800, 600⟩).2 :=
  ((NotebookEditor.C4_layout_guard
      ⟨some ⟨3, 7, true⟩, some ⟨5, some 3, 0⟩, none, none, []⟩ ⟨800, 600⟩).2.2
    ⟨5, some 3, 0⟩ rfl).mpr ⟨⟨3, 7, true⟩, rfl, rfl, Or.inr rfl⟩

/-- Claim C6 counterexample.  The claim requires a view-state write exactly
when the closing input equals the current input, in every controller state.
In a state whose current input is the closing notebook input but with no
borrowed widget, the store stays empty: no write happens. -/
theorem C6_counterexample :
    ((NotebookEditor.onWillCloseEditorInGroup
        ⟨some ⟨4, 7, true⟩, none, none, some 2, []⟩ ⟨4, 7, true⟩).1.store = []) ∧
    ((⟨some ⟨4, 7, true⟩, none, none, some 2, []⟩ : NotebookEditorState).input
      = some ⟨4, 7, true⟩) := by
  exact ⟨rfl, rfl⟩

/-- Claim C6 as amended.  `onWillCloseEditorInGroup(x)` leaves the controller
(including the store) entirely unchanged when `x` is not notebook-typed or
differs from the current input; it writes the current input's view state,
keyed by the group and `x`'s resource, exactly when `x` equals the current
input and both a group and a borrowed widget are present; with either of those
missing the store is unchanged. -/
theorem C6_close_save (st : NotebookEditorState) (x : EditorInput) :
    ((x.isNotebook = false ∨ st.input ≠ some x) → onWillCloseEditorInGroup st x = (st, [])) ∧
    (∀ g w, st.input = some x → x.isNotebook = true → st.group = some g →
        st.widget = some w →
        (onWillCloseEditorInGroup st x).1.store
          = saveEditorState st.store g x.resource w.viewState) ∧
    ((st.group = none ∨ st.widget = none) →
      (onWillCloseEditorInGroup st x).1.store = st.store) := by
  refine ⟨?_, ?_, ?_⟩
  · intro h
    unfold onWillCloseEditorInGroup
    cases hi : st.input with
    | none => split <;> rfl
    | some cur =>
      rcases h with h | h
      · simp [h]
      · have hx : ¬ (x = cur) := fun hc => h (by rw [hi, hc])
        split
        · simp [hx]
        · rfl
  · intro g w h1 hb h3 h4
    unfold onWillCloseEditorInGroup
    rw [h1]
    simp [hb, saveEditorViewState, h3, h4]
  · intro h
    have hnoop := saveEditorViewState_noop st x (Or.symm h)
    unfold onWillCloseEditorInGroup
    split
    · split
      · split
        · rw [hnoop]
        · rfl
      · rfl
    · rfl

/-- Claim C6 amended, witness at a concrete input. -/
theorem C6_witness :
    (NotebookEditor.onWillCloseEditorInGroup
        ⟨some ⟨4, 7, true⟩, some ⟨9, none, 42⟩, none, some 2, []⟩ ⟨4, 7, true⟩).1.store
      = saveEditorState [] 2 4 42 :=
  (NotebookEditor.C6_close_save
    ⟨some ⟨4, 7, true⟩, some ⟨9, none, 42⟩, none, some 2, []⟩ ⟨4, 7, true⟩).2.1
    2 ⟨9, none, 42⟩ rfl rfl rfl rfl

/-- Claim C7.  The store round-trips: a keyed save is loadable at its key; and
an `assignInput` whose input has resource `u` while the group is `g` passes
exactly the blob stored under `(g, u)` at resume time (the proviso that no
intervening save wrote the key is the hypothesis on the post-prefix store) to
the widget's `setModel` contract. -/
theorem C7_view_state_round_trip (st : NotebookEditorState) (i : EditorInput) (w : Widget)
    (g s m : Nat) (tc ep : Bool)
    (hg : st.group = some g)
    (hstore : loadEditorState (setInput_pre st i w).1.store g i.resource = some s) :
    (∀ (σ : VSStore) (u v : Nat), loadEditorState (saveEditorState σ g u v) g u = some v) ∧
    Effect.setModel w.wid m (some s) ∈ (setInput st i w (some m) tc ep).2 := by
  refine ⟨fun σ u v => loadEditorState_saveEditorState σ g u v, ?_⟩
  have hw := setInput_pre_widget st i w
  have hgr : (setInput_pre st i w).1.group = some g := by rw [setInput_pre_group]; exact hg
  have hload : loadTextEditorViewState (setInput_pre st i w).1 i = some s := by
    rw [loadTextEditorViewState_eq _ i g hgr]; exact hstore
  simp only [setInput, List.mem_append]
  right
  rw [setInput_post_resolved _ i m tc ep w hw, hload]
  simp

/-- Claim C7, witness at a concrete input: the pre-phase save of the outgoing
input (same URI) is the save that is loaded back. -/
theorem C7_witness :
    Effect.setModel 22 5 (some 42) ∈
      (NotebookEditor.setInput
        ⟨some ⟨1, 7, true⟩, some ⟨11, none, 42⟩, none, some 0, []⟩
        ⟨1, 8, true⟩ ⟨22, none, 0⟩ (some 5) false false).2 :=
  (NotebookEditor.C7_view_state_round_trip
    ⟨some ⟨1, 7, true⟩, some ⟨11, none, 42⟩, none, some 0, []⟩
    ⟨1, 8, true⟩ ⟨22, none, 0⟩ 0 42 5 false false rfl (by decide)).2

/-- Claim C8.  `saveState` writes the current notebook input's view state
(loadable at the group/URI key) whenever a group and a widget are present, and
is idempotent: from any fixed controller state, running it twice leaves the
same state (store included) as running it once. -/
theorem C8_persistState_saves_and_idempotent (st : NotebookEditorState) :
    (∀ i g w, st.input = some i → i.isNotebook = true → st.group = some g →
        st.widget = some w →
        loadEditorState (saveState st).1.store g i.resource = some w.viewState) ∧
    ((saveState (saveState st).1).1 = (saveState st).1) := by
  constructor
  · intro i g w h1 h2 h3 h4
    unfold saveState saveViewStateIfNotebook
    rw [h1]
    simp [h2, saveEditorViewState, h3, h4, loadEditorState_saveEditorState]
  · obtain ⟨i0, w0, d0, g0, s0⟩ := st
    cases i0 with
    | none => rfl
    | some i =>
      obtain ⟨r, vt, nb⟩ := i
      cases nb with
      | false => rfl
      | true =>
        cases w0 <;> cases g0 <;>
          first
          | rfl
          | simp [saveState, saveViewStateIfNotebook, saveEditorViewState,
              saveEditorState_idem]

/-- Claim C8, witness at a concrete input. -/
theorem C8_witness :
    loadEditorState
      (NotebookEditor.saveState
        ⟨some ⟨6, 7, true⟩, some ⟨11, none, 77⟩, none, some 2, []⟩).1.store 2 6
      = some 77 :=
  (NotebookEditor.C8_persistState_saves_and_idempotent
    ⟨some ⟨6, 7, true⟩, some ⟨11, none, 77⟩, none, some 2, []⟩).1
    ⟨6, 7, true⟩ 2 ⟨11, none, 77⟩ rfl rfl rfl rfl

/-- Claim C9.  `clearInput` never touches the view-state store, clears the
current input (Empty), and tells the borrowed widget to hide exactly when one
is held. -/
theorem C9_clearInput_hides_and_preserves_store (st : NotebookEditorState) :
    ((clearInput st).1.store = st.store) ∧
    ((clearInput st).1.input = none) ∧
    (∀ w, st.widget = some w → (clearInput st).2 = [Effect.hideWidget w.wid]) ∧
    (st.widget = none → (clearInput st).2 = []) := by
  refine ⟨rfl, rfl, ?_, ?_⟩
  · intro w hw; simp [clearInput, hw]
  · intro hw; simp [clearInput, hw]

/-- Claim C9, witness at a concrete input. -/
theorem C9_witness :
    (NotebookEditor.clearInput
        ⟨some ⟨1, 7, true⟩, some ⟨11, none, 0⟩, none, some 0, []⟩).2
      = [Effect.hideWidget 11] :=
  (NotebookEditor.C9_clearInput_hides_and_preserves_store
    ⟨some ⟨1, 7, true⟩, some ⟨11, none, 0⟩, none, some 0, []⟩).2.2.1 ⟨11, none, 0⟩ rfl

/-- Claim C10.  Every view-state save path — `saveState` (persistState),
`onWillHide` (notifyHiding), `onWillCloseEditorInGroup` (notifyClosing), and
the pre-switch save inside `setInput` (and hence the whole `setInput`, whose
continuation never writes the store) — leaves the store unchanged whenever no
widget is borrowed or no group is assigned. -/
theorem C10_save_paths_guarded (st : NotebookEditorState)
    (h : st.widget = none ∨ st.group = none) :
    ((saveState st).1.store = st.store) ∧
    ((onWillHide st).1.store = st.store) ∧
    (∀ x, (onWillCloseEditorInGroup st x).1.store = st.store) ∧
    (∀ i w, (setInput_pre st i w).1.store = st.store) ∧
    (∀ i w m tc ep, (setInput st i w m tc ep).1.store = st.store) := by
  have hn := saveViewStateIfNotebook_noop st h
  have hpre : ∀ i w, (setInput_pre st i w).1.store = st.store := by
    intro i w
    simp [setInput_pre, hn, super_setInput]
  refine ⟨?_, ?_, ?_, hpre, ?_⟩
  · show (saveViewStateIfNotebook st).1.store = st.store
    rw [hn]
  · simp [onWillHide, hn]
  · intro x
    have hnoop := saveEditorViewState_noop st x h
    unfold onWillCloseEditorInGroup
    split
    · split
      · split
        · rw [hnoop]
        · rfl
      · rfl
    · rfl
  · intro i w m tc ep
    simp only [setInput]
    rw [setInput_post_state]
    exact hpre i w

/-- Claim C10, witness at a concrete input. -/
theorem C10_witness :
    (NotebookEditor.saveState
        ⟨some ⟨1, 7, true⟩, none, none, some 0, [((0, 1), 9)]⟩).1.store = [((0, 1), 9)] :=
  (NotebookEditor.C10_save_paths_guarded
    ⟨some ⟨1, 7, true⟩, none, none, some 0, [((0, 1), 9)]⟩ (Or.inl rfl)).1

end NotebookEditor
